import Mathlib

/-!
Shallow embedding of the protocol and computation core of
`src/scopereader.py` (a Fluke ScopeMeter serial client), with theorems
checking the natural-language specification's claims against it.

Conventions of the embedding:
* Byte streams read from the serial port become explicit `List ℕ`
  arguments (one `ℕ` per byte); a read past the end of the list models the
  port timing out.
* Python floats become `ℚ` with exact arithmetic; `math.floor(math.log10 q)`
  becomes an exact integer base-10 logarithm (the concrete inputs used in
  the theorems below round identically under IEEE doubles and under ℚ).
* Code that prints an error and exits becomes `Except` with one error
  constructor per exit path; Python exceptions the code can raise
  (`ValueError` from `int(...)` / `math.log10`, etc.) get their own
  constructors.
* `numpy` sample arrays become a row-major `Mat` structure, so that
  `numpy.resize`'s flatten-and-truncate semantics is represented exactly.
-/

instance {ε α : Type} [DecidableEq ε] [DecidableEq α] : DecidableEq (Except ε α)
  | .error e, .error f =>
      if h : e = f then .isTrue (by rw [h]) else .isFalse (by simp [h])
  | .error _, .ok _ => .isFalse (by simp)
  | .ok _, .error _ => .isFalse (by simp)
  | .ok a, .ok b =>
      if h : a = b then .isTrue (by rw [h]) else .isFalse (by simp [h])

/-- `checksum(data, check)` from scopereader.py lines 208–214: the additive
8-bit checksum of `data` (sum reduced mod 256 at every step) compared with
the check byte. -/
def checksum (data : List ℕ) (check : ℕ) : Bool :=
  (data.foldl (fun acc byte => (acc + byte) % 256) 0) == check

/-- The command acknowledgement outcomes of `sendCommand`
(scopereader.py lines 64–81): ack code 0 is success, 1–4 are the four
named error messages, any other successfully parsed digit falls to the
"Unknown error code" message. -/
inductive AckOutcome : Type
  | success
  | syntaxError
  | executionError
  | syncError
  | commError
  | unknownCode (code : ℕ)
deriving DecidableEq

/-- The failure modes of `sendCommand`'s acknowledgement handling that are
not ack-code outcomes: a second byte that is not CR (line 60), and the
`ValueError` Python raises at line 64 when `int(chr(ack[0]))` is applied
to a byte that is not an ASCII digit. -/
inductive AckErr : Type
  | malformedAck
  | valueError
deriving DecidableEq

/-- The acknowledgement classification of `sendCommand`
(scopereader.py lines 60–81) on a 2-byte ack `b0 b1`: the second byte must
be CR (13); then `int(chr(b0))` parses `b0` as an ASCII digit—any byte
outside `'0'..'9'` (48–57) makes `int` raise `ValueError`—and the digit is
mapped to its outcome. -/
def sendCommandAck (b0 b1 : ℕ) : Except AckErr AckOutcome :=
  if b1 ≠ 13 then .error .malformedAck
  else if 48 ≤ b0 ∧ b0 ≤ 57 then
    let code := b0 - 48
    if code = 0 then .ok .success
    else if code = 1 then .ok .syntaxError
    else if code = 2 then .ok .executionError
    else if code = 3 then .ok .syncError
    else if code = 4 then .ok .commError
    else .ok (.unknownCode code)
  else .error .valueError

/-- The byte predicate of `getDecimal`'s read loop (scopereader.py
lines 182–185): the loop keeps consuming bytes that are ASCII digits,
`'.'` (46), `'+'` (43) or `'-'` (45); the first byte failing this
predicate ends the number and becomes the separator. -/
def isNumByte (b : ℕ) : Bool :=
  ((48 ≤ b && b ≤ 57) || b == 46 || b == 43 || b == 45)

/-- Error exits of `getDecimal` (scopereader.py lines 172–206): a read
timeout (line 178), the "invalid field separator" exit (line 203), and the
`ValueError` Python's `int(...)`/`float(...)` raise on a malformed digit
run such as `"+"` or `"1-2"` (lines 197–199). -/
inductive DecErr : Type
  | timeout
  | sepMismatch
  | valueError
deriving DecidableEq

/-- A Python number as produced by `getDecimal` (scopereader.py
lines 196–199): `int(number)` when no `'.'` was seen, `float(number)`
otherwise. -/
inductive PyNum : Type
  | int (n : ℤ)
  | float (q : ℚ)
deriving DecidableEq

/-- The three result shapes of `getDecimal`: `None` (empty digit run),
a bare number (expected separator supplied and matched), or a
number/observed-separator pair (no expected separator). -/
inductive DecResult : Type
  | noValue
  | value (n : PyNum)
  | pair (n : PyNum) (separator : ℕ)
deriving DecidableEq

/-- `getDecimal`'s read loop (scopereader.py lines 176–189): consume
bytes satisfying `isNumByte` into the number, stop at the first byte that
does not (that byte is consumed and is the separator). Running out of
stream models the port read timing out. Returns (digit-run bytes,
separator byte, rest of stream). -/
def scanNumber : List ℕ → Except DecErr (List ℕ × ℕ × List ℕ)
  | [] => .error .timeout
  | b :: rest =>
      if isNumByte b then
        match scanNumber rest with
        | .error e => .error e
        | .ok (digits, sep, rem) => .ok (b :: digits, sep, rem)
      else .ok ([], b, rest)

/-- The value of a (nonempty) run of ASCII digit bytes read left to
right. -/
def digitsVal (l : List ℕ) : ℕ :=
  l.foldl (fun acc b => acc * 10 + (b - 48)) 0

/-- Python's `int(s)` on a string drawn from the characters
digits/`.`/`+`/`-` with no `.` present: an optional single sign followed
by at least one digit, anything else raises `ValueError` (`none`). -/
def parseDigits (l : List ℕ) : Option ℕ :=
  if l ≠ [] ∧ l.all (fun b => 48 ≤ b && b ≤ 57) then some (digitsVal l)
  else none

/-- Python `int(...)` over the digit run collected by `getDecimal`
(scopereader.py line 199). -/
def parseIntBytes : List ℕ → Option ℤ
  | 43 :: rest => (parseDigits rest).map fun n => (n : ℤ)
  | 45 :: rest => (parseDigits rest).map fun n => -(n : ℤ)
  | l => (parseDigits l).map fun n => (n : ℤ)

/-- Python `float(s)` on a sign-stripped string drawn from
digits/`.`/`+`/`-`: digits with at most one `.` and at least one digit
in total; e.g. `"1."` and `".5"` parse, `"."` and `"1.2.3"` raise
`ValueError` (`none`). -/
def parseFracCore (l : List ℕ) : Option ℚ :=
  let isDig : ℕ → Bool := fun b => 48 ≤ b && b ≤ 57
  let intPart := l.takeWhile isDig
  match l.dropWhile isDig with
  | [] => if intPart ≠ [] then some (digitsVal intPart : ℚ) else none
  | 46 :: frac =>
      if frac.all isDig ∧ (intPart ≠ [] ∨ frac ≠ []) then
        some ((digitsVal intPart : ℚ) + (digitsVal frac : ℚ) / 10 ^ frac.length)
      else none
  | _ => none

/-- Python `float(...)` over the digit run collected by `getDecimal`
(scopereader.py line 197). -/
def parseFloatBytes : List ℕ → Option ℚ
  | 43 :: rest => parseFracCore rest
  | 45 :: rest => (parseFracCore rest).map (fun q => -q)
  | l => parseFracCore l

/-- `getDecimal(port, sep)` (scopereader.py lines 172–206). The byte
stream is explicit; `sep = some b` models a caller-supplied expected
separator character `b`, `sep = none` models the default `sep=False`.
Faithful to the source's order of checks: the digit run is scanned, the
first failing byte is consumed as separator, then an empty run returns
`None` (before any conversion and before the separator comparison), then
the number is converted (`int`/`float`, possibly a `ValueError`), and
only then is an expected separator compared against the observed one. -/
def getDecimal (stream : List ℕ) (sep : Option ℕ) : Except DecErr DecResult :=
  match scanNumber stream with
  | .error e => .error e
  | .ok (digits, separator, _) =>
      if digits = [] then .ok .noValue
      else
        let num? : Option PyNum :=
          if digits.contains 46 then (parseFloatBytes digits).map .float
          else (parseIntBytes digits).map .int
        match num? with
        | none => .error .valueError
        | some number =>
            match sep with
            | some s =>
                if s ≠ separator then .error .sepMismatch
                else .ok (.value number)
            | none => .ok (.pair number separator)

/-- One round's worth of device response in the segmented screenshot
transfer (scopereader.py lines 229–247): the header class byte, the
`size`-byte payload, the checksum byte and the terminator byte that
follow it. -/
structure Segment where
  header : ℕ
  payload : List ℕ
  check : ℕ
  term : ℕ
deriving DecidableEq

/-- How a run of the screenshot transfer loop ends: normal completion
with the accumulated image, the three fatal exits of lines 241, 248 and
259, or a transport that stopped answering (modelled when the segment
list is exhausted). -/
inductive ScrResult : Type
  | complete (image : List ℕ)
  | fatalChecksum
  | fatalTerm
  | fatalMismatch
  | timeout
deriving DecidableEq

/-- The screenshot transfer loop of `screenshot` (scopereader.py
lines 222–261), one recursive step per round. State: remaining device
responses, remaining expected byte count `dataLength`, the consecutive
retry counter `retries`, the `status` payload the next status command
will carry, the accumulated `image`, and the log `sent` of every status
payload sent so far. Returns the outcome, the full status log, and the
responses never read. Faithful to the source: a failed checksum
increments `retries`, exits fatally when it reaches 3, and otherwise
sets `status` to 1 and retries; a successful segment resets `retries`
to 0 (line 251) but leaves `status` unchanged; completion requires the
remaining length to hit exactly 0 in the same round that carries the
final-segment header bit. -/
def screenshotRun : List Segment → ℤ → ℕ → ℕ → List ℕ → List ℕ →
    ScrResult × List ℕ × List Segment
  | [], _, _, status, _, sent => (.timeout, sent ++ [status], [])
  | seg :: rest, dataLength, retries, status, image, sent =>
      let sent := sent ++ [status]
      if checksum seg.payload seg.check = false then
        if retries + 1 ≥ 3 then (.fatalChecksum, sent, rest)
        else screenshotRun rest dataLength (retries + 1) 1 image sent
      else if seg.term ≠ 13 then (.fatalTerm, sent, rest)
      else
        let image' := image ++ seg.payload
        let dataLength' := dataLength - seg.payload.length
        if dataLength' = 0 ∧ seg.header &&& 0x80 ≠ 0 then
          (.complete image', sent, rest)
        else if dataLength' = 0 ∨ seg.header &&& 0x80 ≠ 0 then
          (.fatalMismatch, sent, rest)
        else screenshotRun rest dataLength' 0 status image' sent

/-- Entry into the transfer loop (scopereader.py lines 223–225): the
expected total length is known, `status` starts at 0, `retries` at 0,
the image buffer empty. -/
def screenshot (dataLength : ℤ) (segs : List Segment) :
    ScrResult × List ℕ × List Segment :=
  screenshotRun segs dataLength 0 0 [] []

/-- A `numpy` 2-D sample array in row-major storage: `rows` groups of
`cols` slots, the flat `data` holding `data[i*cols + j]` at group `i`,
slot `j`. -/
structure Mat where
  rows : ℕ
  cols : ℕ
  data : List ℚ
deriving DecidableEq

/-- `samples[i][j]` on a row-major array. -/
def Mat.entry (m : Mat) (i j : ℕ) : ℚ :=
  m.data.getD (i * m.cols + j) 0

/-- `numpy.resize(a, (r, c))`: the source array is flattened in row-major
order and the first `r*c` elements of its endless repetition are kept. -/
def numpyResize (m : Mat) (r c : ℕ) : Mat :=
  ⟨r, c,
    if m.data.isEmpty then List.replicate (r * c) 0
    else (List.range (r * c)).map fun i => m.data.getD (i % m.data.length) 0⟩

/-- The average/glitch post-processing of `waveforms` (scopereader.py
lines 472–487), applied to a freshly decoded trace-family waveform's
sample matrix: with 2 slots per group, if every group's two slots are
equal the matrix is collapsed via `numpy.resize(samples, (rows, 1))` and
the trace kind becomes `"average"`, otherwise the matrix is kept and the
kind becomes `"glitch"`; with any other slot count the kind is
`"trace"`. Returns the resulting samples and trace kind. -/
def averageGlitchSplit (m : Mat) : Mat × String :=
  if m.cols = 2 then
    if (List.range m.rows).all (fun i => m.entry i 0 == m.entry i 1) then
      (numpyResize m m.rows 1, "average")
    else (m, "glitch")
  else (m, "trace")

/-- Python's substring test `needle in hay` on lists of characters. -/
def listContainsSub (needle : List Char) : List Char → Bool
  | [] => needle.isEmpty
  | c :: rest => needle.isPrefixOf (c :: rest) || listContainsSub needle rest

/-- Python's `needle in hay` on strings. -/
def pyInStr (needle hay : String) : Bool :=
  listContainsSub needle.toList hay.toList

/-- The samples-per-group selection of `waveform`'s sample-block decoder
(scopereader.py lines 382–392), as a function of the control byte and of
the `trace_type` field the decoder reads from the waveform record:
bits 4–6 (`ctrl & 0b01110000`) select 1, 2 or 3 samples per group, and
the ambiguous `0b1110000` pattern selects 3 exactly when `"trend"`
occurs in the trace type, else 2. -/
def samples_per_sample (ctrl : ℕ) (trace_type : String) : ℕ :=
  let s1 := 1
  let s2 := if ctrl &&& 0b01110000 = 0b01000000 then 2 else s1
  let s3 := if ctrl &&& 0b01110000 = 0b01100000 then 3 else s2
  if ctrl &&& 0b01110000 = 0b01110000 then
    if pyInStr "trend" trace_type then 3 else 2
  else s3

/-- The fields of `waveform_t` (scopereader.py lines 270–287) the derived
computations read or write. The timestamp is an abstract instant (only
its equality is ever used); numeric fields are exact rationals. -/
structure WaveformRec where
  channel : String
  trace_type : String
  y_unit : String
  x_unit : String
  y_divisions : ℕ
  x_divisions : ℕ
  y_scale : ℚ
  x_scale : ℚ
  x_zero : ℚ
  y_at_0 : ℚ
  x_at_0 : ℚ
  delta_x : ℚ
  timestamp : ℤ
  samples : Mat
  averaged : Bool
deriving DecidableEq

/-- The error exits of the dual-channel power combination (scopereader.py
lines 494–506), in source order. -/
inductive PowerErr : Type
  | timestampMismatch
  | unitsIncorrect
  | traceTypeMismatch
  | glitchOn
deriving DecidableEq

/-- The elementwise product loop of the power combination (scopereader.py
lines 523–525): `data.samples[i] = waveforms[0].samples[i] *
waveforms[1].samples[i]` over single-slot rows. -/
def prodSamples (m0 m1 : Mat) : Mat :=
  ⟨m0.rows, m0.cols,
    (List.range m0.rows).map fun i => m0.entry i 0 * m1.entry i 0⟩

/-- The dual-channel power combination of `waveforms` (scopereader.py
lines 493–526). The guards are the source's, in its order — including
line 494's comparison of `waveforms[0].timestamp` against itself — and
the output fields are the source's assignments, including line 516's
`y_scale = waveforms[0].y_scale * waveforms[0].y_scale`. -/
def combinePower (w0 w1 : WaveformRec) : Except PowerErr WaveformRec :=
  if w0.timestamp ≠ w0.timestamp then .error .timestampMismatch
  else if w0.y_unit ≠ "V" ∨ w1.y_unit ≠ "A" then .error .unitsIncorrect
  else if w0.trace_type ≠ w1.trace_type then .error .traceTypeMismatch
  else if w0.samples.cols ≠ 1 ∨ w1.samples.cols ≠ 1 then .error .glitchOn
  else .ok
    { channel := "both"
      trace_type :=
        (if w0.trace_type ≠ "trace" then w0.trace_type ++ " " else "") ++ "power"
      y_unit := "W"
      x_unit := w0.x_unit
      y_divisions := w0.y_divisions
      x_divisions := w0.x_divisions
      y_scale := w0.y_scale * w0.y_scale
      x_scale := w0.x_scale
      x_zero := w0.x_zero
      y_at_0 := w0.y_at_0 * w1.y_at_0
      x_at_0 := w0.x_at_0
      delta_x := w0.delta_x
      timestamp := w0.timestamp
      samples := prodSamples w0.samples w1.samples
      averaged := w0.averaged }

/-- The errors `si` (scopereader.py lines 603–658) can raise: the
`ValueError` of `math.log10` on zero, the same on a negative argument
(kept apart so that reaching `log10(0)` is expressible), and the
`IndexError` of a prefix-table lookup past the Y/y entries. -/
inductive SiErr : Type
  | logZero
  | logNeg
  | degreeRange
deriving DecidableEq

/-- Largest `k` with `10^k ≤ n`, for `n ≥ 1`, by fuelled division. -/
def natLog10 : ℕ → ℕ → ℕ
  | 0, _ => 0
  | fuel + 1, n => if n < 10 then 0 else natLog10 fuel (n / 10) + 1

/-- Smallest `k` with `n ≤ 10^k`, for `n ≥ 1`, by fuelled ceiling
division. -/
def natClog10 : ℕ → ℕ → ℕ
  | 0, _ => 0
  | fuel + 1, n => if n ≤ 1 then 0 else natClog10 fuel ((n + 9) / 10) + 1

/-- `⌊log10 q⌋` for a positive rational: for `q ≥ 1` the largest `k`
with `10^k ≤ ⌊q⌋`, for `q < 1` the negated smallest `k` with
`q⁻¹ ≤ 10^k`, i.e. `-⌈log10 q⁻¹⌉`. -/
def floorLog10Pos (q : ℚ) : ℤ :=
  if 1 ≤ q then (natLog10 ⌊q⌋.toNat ⌊q⌋.toNat : ℤ)
  else -(natClog10 ⌈q⁻¹⌉.toNat ⌈q⁻¹⌉.toNat : ℤ)

/-- `math.floor(math.log10(q))` under exact arithmetic: `math.log10`
raises `ValueError` on zero (`logZero`) and on a negative argument
(`logNeg`). -/
def floorLog10 (q : ℚ) : Except SiErr ℤ :=
  if q = 0 then .error .logZero
  else if q < 0 then .error .logNeg
  else .ok (floorLog10Pos q)

/-- The nested `degree(number)` helper of `si` (scopereader.py
lines 613–616): `int(math.floor(math.log10(abs(number))/3))`; dividing
before flooring equals flooring then floor-dividing by 3. -/
def degreeOf (q : ℚ) : Except SiErr ℤ :=
  (floorLog10 |q|).map fun l => Int.fdiv l 3

/-- The nested `prefix(degree)` helper of `si` (scopereader.py
lines 604–611): negative degrees index the negative-prefix table by
`-degree`, others the positive table by `degree`; an index past either
table raises `IndexError`. -/
def prefixSym (d : ℤ) : Except SiErr String :=
  let pos := ["", "k", "M", "G", "T", "P", "E", "Z", "Y"]
  let neg := ["", "m", "μ", "n", "p", "f", "a", "z", "y"]
  if d < 0 then
    match neg.get? (-d).toNat with
    | some s => .ok s
    | none => .error .degreeRange
  else
    match pos.get? d.toNat with
    | some s => .ok s
    | none => .error .degreeRange

/-- Round a rational to the nearest integer, ties to the even integer —
the rounding Python's fixed-point `format` applies. -/
def roundHalfEven (q : ℚ) : ℤ :=
  let f := ⌊q⌋
  if q - f < 1 / 2 then f
  else if q - f > 1 / 2 then f + 1
  else if f % 2 = 0 then f else f + 1

/-- Left-pad a digit string with zeros to width `w`. -/
def padZeros (s : String) (w : ℕ) : String :=
  String.mk (List.replicate (w - s.length) '0') ++ s

/-- Python's `"{:.df}".format(q)` on an exact rational: round `q` to `d`
decimal places (ties to even) and print with exactly `d` digits after
the point (none, and no point, for `d = 0`). -/
def formatFixed (q : ℚ) (d : ℕ) : String :=
  let n := roundHalfEven (q * 10 ^ d)
  let sign := if n < 0 then "-" else ""
  let m := n.natAbs
  if d = 0 then sign ++ toString m
  else sign ++ toString (m / 10 ^ d) ++ "." ++ padZeros (toString (m % 10 ^ d)) d

/-- `si(number, precision, unit)` (scopereader.py lines 603–658) under
exact rational arithmetic, in the source's order: (1) a nonzero
precision is replaced by `ceil(precision/10^⌊log10 precision⌋) *
10^⌊log10 precision⌋`; (2) for a nonzero number the degree is
`degree(number)` and, when the precision is nonzero, the significant
digit count is `⌊log10 number⌋ - ⌊log10 precision⌋ + 1 -
(⌊log10|number/1000^degree|⌋ + 1)` clamped at 0; for a zero number the
degree is `degree(precision)` — which is where `si(0, 0, unit)` reaches
`log10(0)`; (3) number and precision are scaled by `1000^degree` and
rendered with the SI prefix, as a bare value when the precision is 0 and
as `(value ± precision)` otherwise. -/
def si (number precision : ℚ) (unit : String) : Except SiErr String := do
  let precision ←
    if precision ≠ 0 then do
      let e ← floorLog10 precision
      pure ((⌈precision / (10 : ℚ) ^ e⌉ : ℚ) * (10 : ℚ) ^ e)
    else pure precision
  let sd ←
    if number ≠ 0 then do
      let degree_var ← degreeOf number
      if precision ≠ 0 then do
        let a ← floorLog10 number
        let b ← floorLog10 precision
        let c ← floorLog10 |number / (1000 : ℚ) ^ degree_var|
        let s := a - b + 1 - (c + 1)
        pure (if s < 0 then (0 : ℤ) else s, degree_var)
      else
        pure ((0 : ℤ), degree_var)
    else do
      let degree_var ← degreeOf precision
      pure ((0 : ℤ), degree_var)
  let significantDigits := sd.1
  let degree_var := sd.2
  let precision := precision / (1000 : ℚ) ^ degree_var
  let number := number / (1000 : ℚ) ^ degree_var
  let pre ← prefixSym degree_var
  if precision = 0 then
    return formatFixed number 0 ++ " " ++ pre ++ unit
  else
    return "(" ++ formatFixed number significantDigits.toNat ++ " ± " ++
      formatFixed precision significantDigits.toNat ++ ") " ++ pre ++ unit

/-! ### Concrete inputs used by the claim theorems -/

/-- A segment whose checksum byte (0) does not match its payload sum
(7 + 7 = 14). -/
def badSeg : Segment := ⟨0, [7, 7], 0, 13⟩

/-- A checksum-correct, non-final segment (header bit 7 clear). -/
def goodMid : Segment := ⟨0, [7, 7], 14, 13⟩

/-- A checksum-correct, final segment (header bit 7 set). -/
def goodFinal : Segment := ⟨128, [7, 7], 14, 13⟩

/-- A single-slot channel-A trace waveform with y-unit V, y-scale 2,
y-value-at-origin 5, timestamp 100. -/
def wVolt : WaveformRec :=
  { channel := "A", trace_type := "trace", y_unit := "V", x_unit := "s"
    y_divisions := 8, x_divisions := 10, y_scale := 2, x_scale := 1
    x_zero := 0, y_at_0 := 5, x_at_0 := 0, delta_x := 1, timestamp := 100
    samples := ⟨2, 1, [1, 2]⟩, averaged := false }

/-- A single-slot channel-B trace waveform with y-unit A, y-scale 3,
y-value-at-origin 7, and a timestamp (200) differing from `wVolt`'s. -/
def wAmp : WaveformRec :=
  { channel := "B", trace_type := "trace", y_unit := "A", x_unit := "s"
    y_divisions := 8, x_divisions := 10, y_scale := 3, x_scale := 1
    x_zero := 0, y_at_0 := 7, x_at_0 := 0, delta_x := 1, timestamp := 200
    samples := ⟨2, 1, [3, 4]⟩, averaged := false }

/-- What `combinePower wVolt wAmp` evaluates to: note `y_scale = 4`
(2 × 2, channel A's scale squared by line 516) while `y_at_0 = 35`
(5 × 7, the cross-channel product of line 519). -/
def powerOut : WaveformRec :=
  { channel := "both", trace_type := "power", y_unit := "W", x_unit := "s"
    y_divisions := 8, x_divisions := 10, y_scale := 4, x_scale := 1
    x_zero := 0, y_at_0 := 35, x_at_0 := 0, delta_x := 1, timestamp := 100
    samples := ⟨2, 1, [3, 8]⟩, averaged := false }

/-! ### Helper lemmas -/

theorem except_bind_ok {ε α β : Type} (a : α) (f : α → Except ε β) :
    (Except.ok a : Except ε α) >>= f = f a := rfl

theorem except_bind_err {ε α β : Type} (e : ε) (f : α → Except ε β) :
    (Except.error e : Except ε α) >>= f = Except.error e := rfl

theorem except_pure_eq {ε α : Type} (a : α) :
    (pure a : Except ε α) = Except.ok a := rfl

theorem combinePower_eval : combinePower wVolt wAmp = .ok powerOut := by
  norm_num [combinePower, wVolt, wAmp, powerOut, prodSamples, Mat.entry,
    List.range_succ]

theorem fl_5over10000 : floorLog10 ((5 : ℚ)/10000) = .ok (-4) := by
  have h : (((5 : ℚ)/10000))⁻¹ = 2000 := by norm_num
  simp only [floorLog10, floorLog10Pos]
  rw [if_neg (by norm_num), if_neg (by norm_num), if_neg (by norm_num), h]
  decide

theorem fl_1over2000 : floorLog10 ((1 : ℚ)/2000) = .ok (-4) := by
  have h : (((1 : ℚ)/2000))⁻¹ = 2000 := by norm_num
  simp only [floorLog10, floorLog10Pos]
  rw [if_neg (by norm_num), if_neg (by norm_num), if_neg (by norm_num), h]
  decide

theorem fl_33over10000 : floorLog10 ((33 : ℚ)/10000) = .ok (-3) := by
  have h : (⌈(((33 : ℚ)/10000))⁻¹⌉ : ℤ) = 304 := by
    rw [Int.ceil_eq_iff]
    constructor <;> norm_num
  simp only [floorLog10, floorLog10Pos]
  rw [if_neg (by norm_num), if_neg (by norm_num), if_neg (by norm_num), h]
  decide

theorem fl_33over10 : floorLog10 ((33 : ℚ)/10) = .ok 0 := by
  have h : (⌊(33 : ℚ)/10⌋ : ℤ) = 3 := by norm_num
  simp only [floorLog10, floorLog10Pos]
  rw [if_neg (by norm_num), if_neg (by norm_num), if_pos (by norm_num), h]
  decide

theorem deg_33over10000 : degreeOf ((33 : ℚ)/10000) = .ok (-1) := by
  have habs : |(33 : ℚ)/10000| = (33 : ℚ)/10000 := abs_of_pos (by norm_num)
  rw [degreeOf, habs, fl_33over10000]
  decide

theorem rhe_int (n : ℤ) : roundHalfEven ((n : ℚ)) = n := by
  simp [roundHalfEven]

theorem ff_33over10 : formatFixed ((33 : ℚ)/10) 1 = "3.3" := by
  have h : ((33 : ℚ)/10) * 10 ^ (1 : ℕ) = ((33 : ℤ) : ℚ) := by norm_num
  simp only [formatFixed, h, rhe_int]
  decide

theorem ff_1over2 : formatFixed ((1 : ℚ)/2) 1 = "0.5" := by
  have h : ((1 : ℚ)/2) * 10 ^ (1 : ℕ) = ((5 : ℤ) : ℚ) := by norm_num
  simp only [formatFixed, h, rhe_int]
  decide

theorem prefixSym_neg1 : prefixSym (-1) = .ok "m" := by decide

theorem si_eval_33_5 :
    si ((33 : ℚ)/10000) ((5 : ℚ)/10000) "A" = .ok "(3.3 ± 0.5) mA" := by
  simp only [si]
  rw [if_pos (by norm_num : ((5 : ℚ)/10000) ≠ 0)]
  rw [fl_5over10000, except_bind_ok]
  rw [show (⌈((5 : ℚ)/10000) / (10 : ℚ) ^ (-4 : ℤ)⌉ : ℚ) * (10 : ℚ) ^ (-4 : ℤ) = 1/2000
    from by norm_num]
  rw [except_pure_eq, except_bind_ok]
  rw [if_pos (by norm_num : ((33 : ℚ)/10000) ≠ 0)]
  rw [deg_33over10000, except_bind_ok]
  rw [if_pos (by norm_num : ((1 : ℚ)/2000) ≠ 0)]
  rw [fl_33over10000, except_bind_ok]
  rw [fl_1over2000, except_bind_ok]
  rw [show |((33 : ℚ)/10000) / (1000 : ℚ) ^ (-1 : ℤ)| = 33/10 from by norm_num]
  rw [fl_33over10, except_bind_ok]
  rw [except_pure_eq, except_bind_ok]
  rw [show ((1 : ℚ)/2000) / (1000 : ℚ) ^ (-1 : ℤ) = 1/2 from by norm_num]
  rw [show ((33 : ℚ)/10000) / (1000 : ℚ) ^ (-1 : ℤ) = 33/10 from by norm_num]
  norm_num [prefixSym_neg1, except_bind_ok, except_pure_eq, ff_33over10, ff_1over2]
  rfl

theorem floorLog10_pos_eq (q : ℚ) (hq : 0 < q) :
    floorLog10 q = .ok (floorLog10Pos q) := by
  rw [floorLog10, if_neg (ne_of_gt hq), if_neg (not_lt.mpr hq.le)]

theorem floorLog10_neg_eq (q : ℚ) (hq : q < 0) :
    floorLog10 q = .error .logNeg := by
  rw [floorLog10, if_neg (ne_of_lt hq), if_pos hq]

theorem degreeOf_eq (q : ℚ) (hq : q ≠ 0) :
    degreeOf q = .ok (Int.fdiv (floorLog10Pos |q|) 3) := by
  rw [degreeOf, floorLog10_pos_eq |q| (abs_pos.mpr hq)]
  rfl

theorem ceil_scale_pos (p : ℚ) (e : ℤ) (hp : 0 < p) :
    0 < (⌈p / (10 : ℚ) ^ e⌉ : ℚ) * (10 : ℚ) ^ e := by
  have h10 : (0 : ℚ) < (10 : ℚ) ^ e := zpow_pos (by norm_num) e
  have hc : (0 : ℤ) < ⌈p / (10 : ℚ) ^ e⌉ := Int.ceil_pos.mpr (div_pos hp h10)
  exact mul_pos (by exact_mod_cast hc) h10

theorem ite_ok_ne_logZero (c : Prop) [inst : Decidable c] (x y : String) :
    (if c then (pure x : Except SiErr String) else pure y) ≠ .error .logZero := by
  split <;> simp [except_pure_eq]

theorem bind_prefixSym_ne_logZero (d : ℤ) (g : String → Except SiErr String)
    (hg : ∀ s, g s ≠ .error .logZero) :
    prefixSym d >>= g ≠ .error .logZero := by
  simp only [prefixSym]
  split <;> split
  · rename_i s hs
    rw [except_bind_ok]
    exact hg s
  · rw [except_bind_err]
    simp
  · rename_i s hs
    rw [except_bind_ok]
    exact hg s
  · rw [except_bind_err]
    simp

/-! ### Claim theorems -/

/-- C1 (code_bug evidence): on the 2-group matrix [[1,1],[2,2]] —
every group's slots equal — the average/glitch split does collapse to
1 slot per group with kind "average", but `numpy.resize`'s row-major
flatten-and-truncate makes group 1 of the collapsed matrix carry the
value 1 instead of the original group-1 slot value 2; the glitch side
(any unequal group) does preserve both slots of every group unchanged
with kind "glitch". -/
theorem C1_average_resize_bug :
    averageGlitchSplit ⟨2, 2, [1, 1, 2, 2]⟩ = (⟨2, 1, [1, 1]⟩, "average") ∧
    Mat.entry ⟨2, 1, [1, 1]⟩ 1 0 ≠ Mat.entry ⟨2, 2, [1, 1, 2, 2]⟩ 1 0 ∧
    averageGlitchSplit ⟨2, 2, [1, 1, 2, 3]⟩ = (⟨2, 2, [1, 1, 2, 3]⟩, "glitch") := by
  decide

/-- C2: for every control byte whose bits 4–6 equal 0b111, the
sample-block decoder selects 3 samples per group when the waveform's
trace kind is "trend" and 2 samples per group for every trace kind not
containing "trend" (the code's test is substring membership of
"trend"). -/
theorem C2_samples_per_group (ctrl : ℕ)
    (h : ctrl &&& 0b01110000 = 0b01110000) :
    samples_per_sample ctrl "trend" = 3 ∧
    ∀ tt : String, pyInStr "trend" tt = false → samples_per_sample ctrl tt = 2 := by
  constructor
  · simp only [samples_per_sample]
    rw [if_pos h]
    decide
  · intro tt htt
    simp only [samples_per_sample]
    rw [if_pos h, htt]
    decide

/-- C2 witness: the theorem applied at control byte 0b01110000 with
trace kinds "trend" and "trace". -/
theorem C2_samples_per_group_witness :
    (112 &&& 0b01110000 = 0b01110000) ∧
    samples_per_sample 112 "trend" = 3 ∧ samples_per_sample 112 "trace" = 2 :=
  ⟨by decide, (C2_samples_per_group 112 (by decide)).1,
    (C2_samples_per_group 112 (by decide)).2 "trace" (by decide)⟩

/-- C3: (1) a transport failing the checksum exactly twice and then
succeeding completes the transfer; (2) for every transport whose first
three responses fail the checksum, the transfer exits fatally with
status log [0, 1, 1] and the remaining responses are never read;
(3) a successful segment resets the retry counter, so a transport with
two failures before each of two successful segments still completes. -/
theorem C3_segment_retry :
    screenshot 2 [badSeg, badSeg, goodFinal] =
      (.complete [7, 7], [0, 1, 1], []) ∧
    (∀ (s1 s2 s3 : Segment) (rest : List Segment) (dl : ℤ),
      checksum s1.payload s1.check = false →
      checksum s2.payload s2.check = false →
      checksum s3.payload s3.check = false →
      screenshot dl (s1 :: s2 :: s3 :: rest) = (.fatalChecksum, [0, 1, 1], rest)) ∧
    screenshot 4 [badSeg, badSeg, goodMid, badSeg, badSeg, goodFinal] =
      (.complete [7, 7, 7, 7], [0, 1, 1, 1, 1, 1], []) := by
  refine ⟨by decide, ?_, by decide⟩
  intro s1 s2 s3 rest dl h1 h2 h3
  simp [screenshot, screenshotRun, h1, h2, h3]

/-- C3 witness: the three-consecutive-failures clause applied to a
concrete transport with a fourth, never-read response. -/
theorem C3_segment_retry_witness :
    checksum badSeg.payload badSeg.check = false ∧
    screenshot 9 [badSeg, badSeg, badSeg, goodFinal] =
      (.fatalChecksum, [0, 1, 1], [goodFinal]) :=
  ⟨by decide, C3_segment_retry.2.1 badSeg badSeg badSeg [goodFinal] 9
    (by decide) (by decide) (by decide)⟩

/-- C4 (code_bug evidence): two single-slot waveforms with equal trace
kinds, y-units V and A, but different timestamps (100 vs 200) are
accepted by the power combination — line 494 compares
`waveforms[0].timestamp` against itself, so differing timestamps never
cause the claimed failure. -/
theorem C4_power_timestamp_noop :
    wVolt.timestamp ≠ wAmp.timestamp ∧
    combinePower wVolt wAmp = .ok powerOut :=
  ⟨by decide, combinePower_eval⟩

/-- C5 (code_bug evidence): in a successful power combination with
input y-scales 2 (channel A) and 3 (channel B), the output y-scale is
4 = 2 × 2 (line 516 multiplies channel A's scale by itself), not the
claimed product 6 = 2 × 3; the y-value-at-origin is the correct
cross-channel product 35 = 5 × 7. -/
theorem C5_power_scale_squared :
    combinePower wVolt wAmp = .ok powerOut ∧
    powerOut.y_scale = 4 ∧
    wVolt.y_scale * wAmp.y_scale = 6 ∧
    (4 : ℚ) ≠ 6 ∧
    powerOut.y_at_0 = wVolt.y_at_0 * wAmp.y_at_0 := by
  refine ⟨combinePower_eval, by norm_num [powerOut], ?_, by norm_num, ?_⟩
  · norm_num [wVolt, wAmp]
  · norm_num [powerOut, wVolt, wAmp]

/-- C6 (code_bug evidence): after segment 1 fails its checksum once and
is successfully retried, the round for segment 2 — which follows a
successful segment — still sends status payload 1 (the log is
[0, 1, 1]), because the loop never resets `status` to 0 after a
success; the claim requires that third round to send 0. -/
theorem C6_status_stays_one :
    screenshot 4 [badSeg, goodMid, goodFinal] =
      (.complete [7, 7, 7, 7], [0, 1, 1], []) := by
  decide

/-- C7 counterexample: a first ack byte of 65 ('A', not a digit) makes
`int(chr(ack[0]))` raise ValueError — the outcome is not UnknownCode
(not an ok outcome at all). -/
theorem C7_nondigit_counterexample :
    sendCommandAck 65 13 = .error .valueError ∧
    (sendCommandAck 65 13).isOk = false := by
  decide

/-- C7 amended: with CR as second byte, first bytes '0'–'4' map to
Success and the four named errors, the remaining ASCII digits '5'–'9'
map to UnknownCode, and every non-digit first byte raises ValueError
rather than mapping to UnknownCode. -/
theorem C7_ack_mapping (b0 : ℕ) :
    sendCommandAck 48 13 = .ok .success ∧
    sendCommandAck 49 13 = .ok .syntaxError ∧
    sendCommandAck 50 13 = .ok .executionError ∧
    sendCommandAck 51 13 = .ok .syncError ∧
    sendCommandAck 52 13 = .ok .commError ∧
    (53 ≤ b0 ∧ b0 ≤ 57 → sendCommandAck b0 13 = .ok (.unknownCode (b0 - 48))) ∧
    (¬(48 ≤ b0 ∧ b0 ≤ 57) → sendCommandAck b0 13 = .error .valueError) := by
  refine ⟨by decide, by decide, by decide, by decide, by decide, ?_, ?_⟩
  · rintro ⟨h1, h2⟩
    interval_cases b0 <;> decide
  · intro h
    simp only [sendCommandAck]
    rw [if_neg (by decide), if_neg h]

/-- C7 witness: the amended mapping applied at first bytes 55 ('7') and
200 (not a digit). -/
theorem C7_ack_mapping_witness :
    ((53 ≤ 55 ∧ 55 ≤ 57) ∧ sendCommandAck 55 13 = .ok (.unknownCode 7)) ∧
    (¬(48 ≤ 200 ∧ 200 ≤ 57) ∧ sendCommandAck 200 13 = .error .valueError) :=
  ⟨⟨by decide, (C7_ack_mapping 55).2.2.2.2.2.1 (by decide)⟩,
   ⟨by decide, (C7_ack_mapping 200).2.2.2.2.2.2 (by decide)⟩⟩

/-- C8 counterexample: under the code's exact arithmetic,
si(0.0033, 0.0005, "A") renders "(3.3 ± 0.5) mA", not the claimed
"(3 ± 1) mA" (and the precision is not rounded up to 0.001). -/
theorem C8_si_format_counterexample :
    si ((33 : ℚ)/10000) ((5 : ℚ)/10000) "A" = .ok "(3.3 ± 0.5) mA" ∧
    ("(3.3 ± 0.5) mA" : String) ≠ "(3 ± 1) mA" :=
  ⟨si_eval_33_5, by decide⟩

/-- C8 amended: si(0.0033, 0.0005, "A") first applies the
ceiling-to-leading-digit step to the precision, which leaves 0.0005
unchanged (⌊log10 0.0005⌋ = −4 and ⌈0.0005/10⁻⁴⌉·10⁻⁴ = 0.0005, one
significant figure already), and renders "(3.3 ± 0.5) mA". -/
theorem C8_si_format_amended :
    floorLog10 ((5 : ℚ)/10000) = .ok (-4) ∧
    (⌈((5 : ℚ)/10000) / (10 : ℚ) ^ (-4 : ℤ)⌉ : ℚ) * (10 : ℚ) ^ (-4 : ℤ) = 5/10000 ∧
    si ((33 : ℚ)/10000) ((5 : ℚ)/10000) "A" = .ok "(3.3 ± 0.5) mA" :=
  ⟨fl_5over10000, by norm_num, si_eval_33_5⟩

/-- C9: si(0, 0, unit) reaches `math.log10(0)` (the zero-argument
ValueError) for every unit, while no input with a nonzero number or a
nonzero precision ever produces that error. -/
theorem C9_si_zero_zero :
    (∀ u, si 0 0 u = .error .logZero) ∧
    (∀ (n p : ℚ) (u : String), n ≠ 0 ∨ p ≠ 0 → si n p u ≠ .error .logZero) := by
  constructor
  · intro u
    simp only [si]
    rw [if_neg (by simp : ¬((0 : ℚ) ≠ 0)), except_pure_eq, except_bind_ok]
    rw [if_neg (by simp : ¬((0 : ℚ) ≠ 0))]
    rw [show degreeOf 0 = .error .logZero from by rw [degreeOf, abs_zero]; rfl]
    simp only [except_bind_err]
  · intro n p u h
    by_cases hp : p = 0
    · have hn : n ≠ 0 := h.resolve_right (fun hq => hq hp)
      subst hp
      simp only [si]
      rw [if_neg (by simp : ¬((0 : ℚ) ≠ 0)), except_pure_eq, except_bind_ok]
      rw [if_pos hn, degreeOf_eq n hn, except_bind_ok]
      rw [if_neg (by simp : ¬((0 : ℚ) ≠ 0)), except_pure_eq, except_bind_ok]
      exact bind_prefixSym_ne_logZero _ _ (fun s => ite_ok_ne_logZero _ _ _)
    · rcases lt_trichotomy p 0 with hneg | hzero | hpos
      · simp only [si]
        rw [if_pos hp, floorLog10_neg_eq p hneg]
        simp only [except_bind_err]
        simp
      · exact absurd hzero hp
      · simp only [si]
        rw [if_pos hp, floorLog10_pos_eq p hpos, except_bind_ok, except_pure_eq,
          except_bind_ok]
        have hPpos := ceil_scale_pos p (floorLog10Pos p) hpos
        by_cases hn : n = 0
        · subst hn
          rw [if_neg (by simp : ¬((0 : ℚ) ≠ 0))]
          rw [degreeOf_eq _ (ne_of_gt hPpos), except_bind_ok, except_pure_eq,
            except_bind_ok]
          exact bind_prefixSym_ne_logZero _ _ (fun s => ite_ok_ne_logZero _ _ _)
        · rw [if_pos hn, degreeOf_eq n hn, except_bind_ok]
          rw [if_pos (ne_of_gt hPpos)]
          rcases lt_trichotomy n 0 with hnneg | hnz | hnpos
          · rw [floorLog10_neg_eq n hnneg]
            simp only [except_bind_err]
            simp
          · exact absurd hnz hn
          · rw [floorLog10_pos_eq n hnpos, except_bind_ok]
            rw [floorLog10_pos_eq _ hPpos, except_bind_ok]
            have h1000 : ((1000 : ℚ)) ^ (Int.fdiv (floorLog10Pos |n|) 3) ≠ 0 :=
              zpow_ne_zero _ (by norm_num)
            have habs : 0 < |n / (1000 : ℚ) ^ (Int.fdiv (floorLog10Pos |n|) 3)| :=
              abs_pos.mpr (div_ne_zero hn h1000)
            rw [floorLog10_pos_eq _ habs, except_bind_ok, except_pure_eq,
              except_bind_ok]
            exact bind_prefixSym_ne_logZero _ _ (fun s => ite_ok_ne_logZero _ _ _)

/-- C9 witness: the nonzero clause applied at number 1, precision 0. -/
theorem C9_si_zero_zero_witness : si 1 0 "V" ≠ .error .logZero :=
  C9_si_zero_zero.2 1 0 "V" (Or.inl (by norm_num))

/-- C10: when an expected separator is supplied and the first byte of
the stream already fails the digit/./+/− predicate, getDecimal returns
the "no value" result — no separator-mismatch error and no returned
separator. -/
theorem C10_empty_run_no_sep_check (s b : ℕ) (rest : List ℕ)
    (h : isNumByte b = false) :
    getDecimal (b :: rest) (some s) = .ok .noValue := by
  simp [getDecimal, scanNumber, h]

/-- C10 witness: the theorem applied to a stream starting with byte 97
('a') and expected separator 44 (','). -/
theorem C10_empty_run_no_sep_check_witness :
    isNumByte 97 = false ∧ getDecimal [97] (some 44) = .ok .noValue :=
  ⟨by decide, C10_empty_run_no_sep_check 44 97 [] (by decide)⟩
